import Mathlib

/-!
Shallow embedding of the GRIB2 section-parsing pipeline and run-length
grid decoder of the `grib2_2` crate.

Conventions of the embedding:
* Bytes and machine integers are modelled as `ℕ`.  Where a claim's truth
  depends on fixed-width (`u32`) overflow behaviour, the arithmetic is
  performed modulo `2 ^ 32` through the `wadd32` / `wsub32` / `wmul32` /
  `wpow32` wrappers, matching Rust release-profile wrapping semantics
  (debug builds panic on overflow; either way the mathematical value is
  not returned).
* A byte stream is a `List ℕ`; reading consumes a prefix.  Failures are
  surfaced through `Except Grib2Error`.
* Rust panics (failed `assert!`, out-of-bounds slice indexing) are
  modelled by a distinguished `crashed` outcome (for the iterator) or by
  `Option` (for `expand_run_length`).
* Error messages that interpolate data (`format!`) are modelled by error
  constructors carrying that data structurally.
-/

namespace Grib2

/-- The modulus of Rust `u32` arithmetic. -/
def U32 : ℕ := 2 ^ 32

/-- Wrapping `u32` addition. -/
def wadd32 (a b : ℕ) : ℕ := (a + b) % U32

/-- Wrapping `u32` subtraction (two's-complement wraparound). -/
def wsub32 (a b : ℕ) : ℕ := (a + (U32 - b % U32)) % U32

/-- Wrapping `u32` multiplication. -/
def wmul32 (a b : ℕ) : ℕ := a * b % U32

/-- Wrapping `u32` power (`u32::pow`, one wrapping multiply per step). -/
def wpow32 (a : ℕ) : ℕ → ℕ
  | 0 => 1 % U32
  | n + 1 => wmul32 a (wpow32 a n)

/-- Wrapping `u32` sum (`Iterator::sum::<u32>()`, folding from 0). -/
def wsum32 (l : List ℕ) : ℕ := l.foldl wadd32 0

/-- The `Grib2Error` enum of `src/lib.rs`.  The `Unexpected` variant of the
source carries a formatted message; the data interpolated into that message
is modelled structurally by the dedicated constructors below. -/
inductive Grib2Error where
  | FileDoesNotExist
  /-- `ReadError` naming the field whose bytes could not be read. -/
  | ReadError (name : String)
  /-- `RuntimeError` naming a missing builder parameter. -/
  | RuntimeError (param : String)
  | ConvertError (name : String)
  /-- `NotImplemented`, message naming the section and the template id. -/
  | NotImplemented (sectionNumber templateId : ℕ)
  /-- `Unexpected` raised by the record iterator when the number of decoded
  points differs from section 3's declared count; message interpolates both. -/
  | UnexpectedCount (reads points : ℕ)
  /-- `Unexpected` raised by `Section8::from_reader`; message interpolates the
  expected and the actual marker bytes. -/
  | UnexpectedMarker (expected actual : List ℕ)
  /-- `Unexpected` raised by `validate_uint!` readers; message interpolates the
  field name, the value read and the expected value. -/
  | UnexpectedValue (name : String) (value expected : ℕ)
  /-- `Unexpected` raised by `read_date_time` for out-of-range components
  (message details elided). -/
  | UnexpectedDateTime (name : String)
  deriving DecidableEq, Repr

/-! ## Primitive field readers (`readers/utils.rs`) -/

/-- `read_bytes`: read exactly `length` bytes or fail with a `ReadError`
naming the field (`read_exact` is all-or-nothing). -/
def read_bytes (input : List ℕ) (name : String) : ℕ → Except Grib2Error (List ℕ × List ℕ)
  | 0 => .ok ([], input)
  | n + 1 =>
    match input with
    | [] => .error (.ReadError name)
    | b :: rest =>
      match read_bytes rest name n with
      | .ok (bs, rem) => .ok (b :: bs, rem)
      | .error e => .error e

/-- `read_u8` (big-endian is trivial for one byte). -/
def read_u8 (input : List ℕ) (name : String) : Except Grib2Error (ℕ × List ℕ) :=
  match input with
  | b :: rest => .ok (b, rest)
  | [] => .error (.ReadError name)

/-- `read_u16`: two bytes, big-endian (`u16::from_be_bytes`). -/
def read_u16 (input : List ℕ) (name : String) : Except Grib2Error (ℕ × List ℕ) :=
  match input with
  | b0 :: b1 :: rest => .ok (b0 * 256 + b1, rest)
  | _ => .error (.ReadError name)

/-- `read_u32`: four bytes, big-endian. -/
def read_u32 (input : List ℕ) (name : String) : Except Grib2Error (ℕ × List ℕ) :=
  match input with
  | b0 :: b1 :: b2 :: b3 :: rest =>
    .ok (((b0 * 256 + b1) * 256 + b2) * 256 + b3, rest)
  | _ => .error (.ReadError name)

/-- `read_u64`: eight bytes, big-endian. -/
def read_u64 (input : List ℕ) (name : String) : Except Grib2Error (ℕ × List ℕ) :=
  match input with
  | b0 :: b1 :: b2 :: b3 :: b4 :: b5 :: b6 :: b7 :: rest =>
    .ok (((((((b0 * 256 + b1) * 256 + b2) * 256 + b3) * 256 + b4) * 256 + b5) * 256
        + b6) * 256 + b7, rest)
  | _ => .error (.ReadError name)

/-- `validate_u8`: read a `u8` and fail with `Unexpected` if it differs from
the expected constant. -/
def validate_u8 (input : List ℕ) (expected : ℕ) (name : String) :
    Except Grib2Error (ℕ × List ℕ) :=
  match read_u8 input name with
  | .error _ => .error (.ReadError name)
  | .ok (value, rest) =>
    if value ≠ expected then .error (.UnexpectedValue name value expected)
    else .ok (value, rest)

/-- `read_i16`: sign-magnitude signed read.  The source clears the top bit of
the first byte (`buf[0] &= 0x7F`, i.e. `b0 % 128` for a byte) and negates the
big-endian magnitude iff that bit was set (`buf[0] & 0x80 != 0`, i.e.
`128 ≤ b0` for a byte). -/
def read_i16 (input : List ℕ) (name : String) : Except Grib2Error (ℤ × List ℕ) :=
  match input with
  | b0 :: b1 :: rest =>
    let sign : ℤ := if b0 < 128 then 1 else -1
    .ok (sign * (((b0 % 128) * 256 + b1 : ℕ) : ℤ), rest)
  | _ => .error (.ReadError name)

/-- `read_i32`: sign-magnitude signed read of four bytes. -/
def read_i32 (input : List ℕ) (name : String) : Except Grib2Error (ℤ × List ℕ) :=
  match input with
  | b0 :: b1 :: b2 :: b3 :: rest =>
    let sign : ℤ := if b0 < 128 then 1 else -1
    .ok (sign * (((((b0 % 128) * 256 + b1) * 256 + b2) * 256 + b3 : ℕ) : ℤ), rest)
  | _ => .error (.ReadError name)

/-- Calendar date-time produced by `read_date_time` (the `time` crate's
`OffsetDateTime`, always UTC here). -/
structure DateTime where
  year : ℕ
  month : ℕ
  day : ℕ
  hour : ℕ
  minute : ℕ
  second : ℕ
  deriving DecidableEq, Repr

/-- Proleptic-Gregorian leap-year rule used by the `time` crate. -/
def isLeapYear (y : ℕ) : Bool := (y % 4 == 0 && y % 100 != 0) || y % 400 == 0

/-- Days in a month for `Date::from_calendar_date` validation. -/
def daysInMonth (y m : ℕ) : ℕ :=
  match m with
  | 1 => 31 | 2 => if isLeapYear y then 29 else 28 | 3 => 31 | 4 => 30
  | 5 => 31 | 6 => 30 | 7 => 31 | 8 => 31 | 9 => 30 | 10 => 31
  | 11 => 30 | 12 => 31
  | _ => 0

/-- `read_date_time`: a `u16` year, then month/day/hour/minute/second bytes,
validated as a calendar date-time (out-of-range components fail). -/
def read_date_time (input : List ℕ) (name : String) :
    Except Grib2Error (DateTime × List ℕ) :=
  match read_u16 input name with
  | .error e => .error e
  | .ok (year, input) =>
    match input with
    | month :: day :: hour :: minute :: second :: rest =>
      if ¬(1 ≤ month ∧ month ≤ 12) then .error (.UnexpectedDateTime name)
      else if ¬(1 ≤ day ∧ day ≤ daysInMonth year month) then
        .error (.UnexpectedDateTime name)
      else if ¬(hour < 24 ∧ minute < 60 ∧ second < 60) then
        .error (.UnexpectedDateTime name)
      else .ok (⟨year, month, day, hour, minute, second⟩, rest)
    | _ => .error (.ReadError name)

/-! ## Run-length decoding (`readers/records.rs`) -/

/-- `expand_run_length`: expand one run-length set.  `values[0]` is the level
(asserted `≤ maxv`; an assertion failure is a panic, modelled as `none`), the
remaining entries are continuation digits interpreted in radix `lngu`.  All
arithmetic is `u32` wrapping arithmetic as in the source. -/
def expand_run_length (values : List ℕ) (maxv lngu : ℕ) : Option (ℕ × ℕ) :=
  match values with
  | [] => none
  | level :: digits =>
    if level ≤ maxv then
      match digits with
      | [] => some (level, 1)
      | _ =>
        let times := wsum32 ((digits.enum).map
          (fun p => wmul32 (wpow32 lngu p.1) (wsub32 p.2 (maxv + 1))))
        some (level, wadd32 times 1)
    else none

/-- Spec-side repeat count (§4.3 of the spec, written from its words):
`1 + Σ_{i=1..n} lngu^(i-1) * (dᵢ − (maxv + 1))`, in unbounded arithmetic. -/
def run_length_total (digits : List ℕ) (maxv lngu : ℕ) : ℕ :=
  1 + ((digits.enum).map (fun p => lngu ^ p.1 * (p.2 - (maxv + 1)))).sum

/-! ## Section 3: grid definition (`grib2/sections/section3.rs`) -/

/-- Template 3.0 payload (all fields of `Section3_0`). -/
structure Section3_0 where
  section_bytes : ℕ
  section_number : ℕ
  source_of_grid_definition : ℕ
  number_of_points : ℕ
  number_of_octets_for_number_of_points : ℕ
  description_of_number_of_points : ℕ
  grid_definition_template_number : ℕ
  shape_of_earth : ℕ
  scale_factor_of_radius_of_spherical_earth : ℕ
  scaled_value_of_radius_of_spherical_earth : ℕ
  scale_factor_of_earth_major_axis : ℕ
  scaled_value_of_earth_major_axis : ℕ
  scale_factor_of_earth_minor_axis : ℕ
  scaled_value_of_earth_minor_axis : ℕ
  number_of_along_lat_points : ℕ
  number_of_along_lon_points : ℕ
  basic_angle_of_initial_product_domain : ℕ
  subdivisions_of_basic_angle : ℕ
  lat_of_first_grid_point : ℕ
  lon_of_first_grid_point : ℕ
  resolution_and_component_flags : ℕ
  lat_of_last_grid_point : ℕ
  lon_of_last_grid_point : ℕ
  i_direction_increment : ℕ
  j_direction_increment : ℕ
  scanning_mode : ℕ
  deriving DecidableEq, Repr

/-- The closed tagged union `Section3`. -/
inductive Section3 where
  | Template3_0 (s : Section3_0)
  deriving DecidableEq, Repr

/-- `read_section3_0`: the template-3.0 body read after the dispatch. -/
def read_section3_0 (input : List ℕ)
    (section_bytes section_number source_of_grid_definition number_of_points
      number_of_octets_for_number_of_points description_of_number_of_points
      grid_definition_template_number : ℕ) :
    Except Grib2Error (Section3 × List ℕ) :=
  match read_u8 input "shape_of_earth" with
  | .error e => .error e
  | .ok (shape_of_earth, input) =>
  match read_u8 input "scale_factor_of_radius" with
  | .error e => .error e
  | .ok (scale_factor_of_radius_of_spherical_earth, input) =>
  match read_u32 input "scaled_value_of_radius" with
  | .error e => .error e
  | .ok (scaled_value_of_radius_of_spherical_earth, input) =>
  match read_u8 input "scale_factor_of_major_axis" with
  | .error e => .error e
  | .ok (scale_factor_of_earth_major_axis, input) =>
  match read_u32 input "scaled_value_of_major_axis" with
  | .error e => .error e
  | .ok (scaled_value_of_earth_major_axis, input) =>
  match read_u8 input "scale_factor_of_minor_axis" with
  | .error e => .error e
  | .ok (scale_factor_of_earth_minor_axis, input) =>
  match read_u32 input "scaled_value_of_minor_axis" with
  | .error e => .error e
  | .ok (scaled_value_of_earth_minor_axis, input) =>
  match read_u32 input "number_of_along_lat_points" with
  | .error e => .error e
  | .ok (number_of_along_lat_points, input) =>
  match read_u32 input "number_of_along_lon_points" with
  | .error e => .error e
  | .ok (number_of_along_lon_points, input) =>
  match read_u32 input "basic_angle" with
  | .error e => .error e
  | .ok (basic_angle_of_initial_product_domain, input) =>
  match read_u32 input "subdivisions_of_basic_angle" with
  | .error e => .error e
  | .ok (subdivisions_of_basic_angle, input) =>
  match read_u32 input "lat_of_first_grid_point" with
  | .error e => .error e
  | .ok (lat_of_first_grid_point, input) =>
  match read_u32 input "lon_of_first_grid_point" with
  | .error e => .error e
  | .ok (lon_of_first_grid_point, input) =>
  match read_u8 input "resolution_and_component_flags" with
  | .error e => .error e
  | .ok (resolution_and_component_flags, input) =>
  match read_u32 input "lat_of_last_grid_point" with
  | .error e => .error e
  | .ok (lat_of_last_grid_point, input) =>
  match read_u32 input "lon_of_last_grid_point" with
  | .error e => .error e
  | .ok (lon_of_last_grid_point, input) =>
  match read_u32 input "i_direction_increment" with
  | .error e => .error e
  | .ok (i_direction_increment, input) =>
  match read_u32 input "j_direction_increment" with
  | .error e => .error e
  | .ok (j_direction_increment, input) =>
  match read_u8 input "scanning_mode" with
  | .error e => .error e
  | .ok (scanning_mode, input) =>
  .ok (.Template3_0 ⟨section_bytes, section_number, source_of_grid_definition,
    number_of_points, number_of_octets_for_number_of_points,
    description_of_number_of_points, grid_definition_template_number,
    shape_of_earth, scale_factor_of_radius_of_spherical_earth,
    scaled_value_of_radius_of_spherical_earth, scale_factor_of_earth_major_axis,
    scaled_value_of_earth_major_axis, scale_factor_of_earth_minor_axis,
    scaled_value_of_earth_minor_axis, number_of_along_lat_points,
    number_of_along_lon_points, basic_angle_of_initial_product_domain,
    subdivisions_of_basic_angle, lat_of_first_grid_point,
    lon_of_first_grid_point, resolution_and_component_flags,
    lat_of_last_grid_point, lon_of_last_grid_point, i_direction_increment,
    j_direction_increment, scanning_mode⟩, input)

/-- `Section3::from_reader`: header, then dispatch on the grid-definition
template number (`0` implemented; anything else is `NotImplemented` with the
id in the message). -/
def Section3.from_reader (input : List ℕ) : Except Grib2Error (Section3 × List ℕ) :=
  match read_u32 input "section3_length" with
  | .error e => .error e
  | .ok (section_bytes, input) =>
  match validate_u8 input 3 "section3_number" with
  | .error e => .error e
  | .ok (section_number, input) =>
  match read_u8 input "source_of_grid_definition" with
  | .error e => .error e
  | .ok (source_of_grid_definition, input) =>
  match read_u32 input "number_of_data_points" with
  | .error e => .error e
  | .ok (number_of_data_points, input) =>
  match read_u8 input "number_of_octets_for_number_of_points" with
  | .error e => .error e
  | .ok (number_of_octets_for_number_of_points, input) =>
  match read_u8 input "description_of_number_of_points" with
  | .error e => .error e
  | .ok (description_of_number_of_points, input) =>
  match read_u16 input "grid_definition_template_number" with
  | .error e => .error e
  | .ok (grid_definition_template_number, input) =>
  if grid_definition_template_number = 0 then
    read_section3_0 input section_bytes section_number source_of_grid_definition
      number_of_data_points number_of_octets_for_number_of_points
      description_of_number_of_points grid_definition_template_number
  else .error (.NotImplemented 3 grid_definition_template_number)

/-! ## Section 4: product definition (`grib2/sections/section4.rs`) -/

/-- Template 4.0 payload. -/
structure Section4_0 where
  section_bytes : ℕ
  section_number : ℕ
  number_of_after_template_points : ℕ
  product_definition_template_number : ℕ
  parameter_category : ℕ
  parameter_number : ℕ
  type_of_generating_process : ℕ
  background_process : ℕ
  generating_process_identifier : ℕ
  hours_after_data_cutoff : ℕ
  minutes_after_data_cutoff : ℕ
  indicator_of_unit_of_time_range : ℕ
  forecast_time : ℤ
  type_of_first_fixed_surface : ℕ
  scale_factor_of_first_fixed_surface : ℕ
  scaled_value_of_first_fixed_surface : ℕ
  type_of_second_fixed_surface : ℕ
  scale_factor_of_second_fixed_surface : ℕ
  scaled_value_of_second_fixed_surface : ℕ
  deriving DecidableEq, Repr

/-- Template 4.50008 payload. -/
structure Section4_50008 where
  section_bytes : ℕ
  section_number : ℕ
  number_of_after_template_points : ℕ
  product_definition_template_number : ℕ
  parameter_category : ℕ
  parameter_number : ℕ
  type_of_generating_process : ℕ
  background_process : ℕ
  generating_process_identifier : ℕ
  hours_after_data_cutoff : ℕ
  minutes_after_data_cutoff : ℕ
  indicator_of_unit_of_time_range : ℕ
  forecast_time : ℤ
  type_of_first_fixed_surface : ℕ
  scale_factor_of_first_fixed_surface : ℕ
  scaled_value_of_first_fixed_surface : ℕ
  type_of_second_fixed_surface : ℕ
  scale_factor_of_second_fixed_surface : ℕ
  scaled_value_of_second_fixed_surface : ℕ
  end_of_all_time_intervals : DateTime
  number_of_time_range_specs : ℕ
  number_of_missing_values : ℕ
  type_of_stat_proc : ℕ
  type_of_stat_proc_time_increment : ℕ
  stat_proc_time_unit : ℕ
  stat_proc_time_length : ℕ
  successive_time_unit : ℕ
  successive_time_increment : ℕ
  radar_info1 : ℕ
  radar_info2 : ℕ
  rain_gauge_info : ℕ
  deriving DecidableEq, Repr

/-- The closed tagged union `Section4`. -/
inductive Section4 where
  | Template4_0 (s : Section4_0)
  | Template4_50008 (s : Section4_50008)
  deriving DecidableEq, Repr

/-- Fields shared by the 4.0 and 4.50008 bodies up to the second fixed
surface (the two Rust readers read them identically). -/
structure Section4Common where
  parameter_category : ℕ
  parameter_number : ℕ
  type_of_generating_process : ℕ
  background_process : ℕ
  generating_process_identifier : ℕ
  hours_after_data_cutoff : ℕ
  minutes_after_data_cutoff : ℕ
  indicator_of_unit_of_time_range : ℕ
  forecast_time : ℤ
  type_of_first_fixed_surface : ℕ
  scale_factor_of_first_fixed_surface : ℕ
  scaled_value_of_first_fixed_surface : ℕ
  type_of_second_fixed_surface : ℕ
  scale_factor_of_second_fixed_surface : ℕ
  scaled_value_of_second_fixed_surface : ℕ
  deriving DecidableEq, Repr

/-- The common field reads shared verbatim by `read_section4_0` and
`read_section4_50008`. -/
def read_section4_common (input : List ℕ) :
    Except Grib2Error (Section4Common × List ℕ) :=
  match read_u8 input "parameter_category" with
  | .error e => .error e
  | .ok (parameter_category, input) =>
  match read_u8 input "parameter_number" with
  | .error e => .error e
  | .ok (parameter_number, input) =>
  match read_u8 input "type_of_generating_process" with
  | .error e => .error e
  | .ok (type_of_generating_process, input) =>
  match read_u8 input "background_process" with
  | .error e => .error e
  | .ok (background_process, input) =>
  match read_u8 input "generating_process_identifier" with
  | .error e => .error e
  | .ok (generating_process_identifier, input) =>
  match read_u16 input "hours_after_data_cutoff" with
  | .error e => .error e
  | .ok (hours_after_data_cutoff, input) =>
  match read_u8 input "minutes_after_data_cutoff" with
  | .error e => .error e
  | .ok (minutes_after_data_cutoff, input) =>
  match read_u8 input "indicator_of_unit_of_time_range" with
  | .error e => .error e
  | .ok (indicator_of_unit_of_time_range, input) =>
  match read_i32 input "forecast_time" with
  | .error e => .error e
  | .ok (forecast_time, input) =>
  match read_u8 input "type_of_first_fixed_surface" with
  | .error e => .error e
  | .ok (type_of_first_fixed_surface, input) =>
  match read_u8 input "scale_factor_of_first_fixed_surface" with
  | .error e => .error e
  | .ok (scale_factor_of_first_fixed_surface, input) =>
  match read_u32 input "scaled_value_of_first_fixed_surface" with
  | .error e => .error e
  | .ok (scaled_value_of_first_fixed_surface, input) =>
  match read_u8 input "type_of_second_fixed_surface" with
  | .error e => .error e
  | .ok (type_of_second_fixed_surface, input) =>
  match read_u8 input "scale_factor_of_second_fixed_surface" with
  | .error e => .error e
  | .ok (scale_factor_of_second_fixed_surface, input) =>
  match read_u32 input "scaled_value_of_second_fixed_surface" with
  | .error e => .error e
  | .ok (scaled_value_of_second_fixed_surface, input) =>
  .ok (⟨parameter_category, parameter_number, type_of_generating_process,
    background_process, generating_process_identifier, hours_after_data_cutoff,
    minutes_after_data_cutoff, indicator_of_unit_of_time_range, forecast_time,
    type_of_first_fixed_surface, scale_factor_of_first_fixed_surface,
    scaled_value_of_first_fixed_surface, type_of_second_fixed_surface,
    scale_factor_of_second_fixed_surface,
    scaled_value_of_second_fixed_surface⟩, input)

/-- `read_section4_0`. -/
def read_section4_0 (input : List ℕ)
    (section_bytes section_number number_of_after_template_points
      product_definition_template_number : ℕ) :
    Except Grib2Error (Section4 × List ℕ) :=
  match read_section4_common input with
  | .error e => .error e
  | .ok (c, input) =>
  .ok (.Template4_0 ⟨section_bytes, section_number,
    number_of_after_template_points, product_definition_template_number,
    c.parameter_category, c.parameter_number, c.type_of_generating_process,
    c.background_process, c.generating_process_identifier,
    c.hours_after_data_cutoff, c.minutes_after_data_cutoff,
    c.indicator_of_unit_of_time_range, c.forecast_time,
    c.type_of_first_fixed_surface, c.scale_factor_of_first_fixed_surface,
    c.scaled_value_of_first_fixed_surface, c.type_of_second_fixed_surface,
    c.scale_factor_of_second_fixed_surface,
    c.scaled_value_of_second_fixed_surface⟩, input)

/-- `read_section4_50008`. -/
def read_section4_50008 (input : List ℕ)
    (section_bytes section_number number_of_after_template_points
      product_definition_template_number : ℕ) :
    Except Grib2Error (Section4 × List ℕ) :=
  match read_section4_common input with
  | .error e => .error e
  | .ok (c, input) =>
  match read_date_time input "end_of_all_time_intervals" with
  | .error e => .error e
  | .ok (end_of_all_time_intervals, input) =>
  match read_u8 input "number_of_time_range_specs" with
  | .error e => .error e
  | .ok (number_of_time_range_specs, input) =>
  match read_u32 input "number_of_missing_values" with
  | .error e => .error e
  | .ok (number_of_missing_values, input) =>
  match read_u8 input "type_of_stat_proc" with
  | .error e => .error e
  | .ok (type_of_stat_proc, input) =>
  match read_u8 input "type_of_stat_proc_time_increment" with
  | .error e => .error e
  | .ok (type_of_stat_proc_time_increment, input) =>
  match read_u8 input "stat_proc_time_unit" with
  | .error e => .error e
  | .ok (stat_proc_time_unit, input) =>
  match read_u32 input "stat_proc_time_length" with
  | .error e => .error e
  | .ok (stat_proc_time_length, input) =>
  match read_u8 input "successive_time_unit" with
  | .error e => .error e
  | .ok (successive_time_unit, input) =>
  match read_u32 input "successive_time_increment" with
  | .error e => .error e
  | .ok (successive_time_increment, input) =>
  match read_u64 input "radar_info1" with
  | .error e => .error e
  | .ok (radar_info1, input) =>
  match read_u64 input "radar_info2" with
  | .error e => .error e
  | .ok (radar_info2, input) =>
  match read_u64 input "rain_gauge_info" with
  | .error e => .error e
  | .ok (rain_gauge_info, input) =>
  .ok (.Template4_50008 ⟨section_bytes, section_number,
    number_of_after_template_points, product_definition_template_number,
    c.parameter_category, c.parameter_number, c.type_of_generating_process,
    c.background_process, c.generating_process_identifier,
    c.hours_after_data_cutoff, c.minutes_after_data_cutoff,
    c.indicator_of_unit_of_time_range, c.forecast_time,
    c.type_of_first_fixed_surface, c.scale_factor_of_first_fixed_surface,
    c.scaled_value_of_first_fixed_surface, c.type_of_second_fixed_surface,
    c.scale_factor_of_second_fixed_surface,
    c.scaled_value_of_second_fixed_surface, end_of_all_time_intervals,
    number_of_time_range_specs, number_of_missing_values, type_of_stat_proc,
    type_of_stat_proc_time_increment, stat_proc_time_unit,
    stat_proc_time_length, successive_time_unit, successive_time_increment,
    radar_info1, radar_info2, rain_gauge_info⟩, input)

/-- `Section4::from_reader`: header, then dispatch on the product-definition
template number (`0` and `50008` implemented). -/
def Section4.from_reader (input : List ℕ) : Except Grib2Error (Section4 × List ℕ) :=
  match read_u32 input "section4_length" with
  | .error e => .error e
  | .ok (section_bytes, input) =>
  match validate_u8 input 4 "section4_number" with
  | .error e => .error e
  | .ok (section_number, input) =>
  match read_u16 input "number_of_after_template_points" with
  | .error e => .error e
  | .ok (number_of_after_template_points, input) =>
  match read_u16 input "product_definition_template_number" with
  | .error e => .error e
  | .ok (product_definition_template_number, input) =>
  if product_definition_template_number = 0 then
    read_section4_0 input section_bytes section_number
      number_of_after_template_points product_definition_template_number
  else if product_definition_template_number = 50008 then
    read_section4_50008 input section_bytes section_number
      number_of_after_template_points product_definition_template_number
  else .error (.NotImplemented 4 product_definition_template_number)

/-! ## Section 5: data representation (`grib2/sections/section5.rs`) -/

/-- Template 5.200 payload; `level_values` keeps the raw `[u8; 2]` pairs like
the source. -/
structure Section5_200 where
  section_bytes : ℕ
  section_number : ℕ
  number_of_points : ℕ
  data_representation_template_number : ℕ
  bits_per_value : ℕ
  max_level_value : ℕ
  number_of_level_values : ℕ
  decimal_scale_factor : ℕ
  level_values : List (ℕ × ℕ)
  deriving DecidableEq, Repr

/-- The closed tagged union `Section5`. -/
inductive Section5 where
  | Template5_200 (s : Section5_200)
  deriving DecidableEq, Repr

/-- The level-table read loop of `read_section5_200` (`read_exact` of two
bytes per level value, repeated `number_of_levels` times). -/
def read_level_values (input : List ℕ) : ℕ → Except Grib2Error (List (ℕ × ℕ) × List ℕ)
  | 0 => .ok ([], input)
  | n + 1 =>
    match input with
    | a :: b :: rest =>
      match read_level_values rest n with
      | .error e => .error e
      | .ok (vs, rem) => .ok ((a, b) :: vs, rem)
    | _ => .error (.ReadError "level_values")

/-- `read_section5_200`: fixed fields, then `(section_bytes − 10 − 6) / 2`
level values. -/
def read_section5_200 (input : List ℕ)
    (section_bytes section_number number_of_points
      data_representation_template_number : ℕ) :
    Except Grib2Error (Section5 × List ℕ) :=
  match read_u8 input "bits_per_value" with
  | .error e => .error e
  | .ok (bits_per_value, input) =>
  match read_u16 input "max_level_value" with
  | .error e => .error e
  | .ok (max_level_value, input) =>
  match read_u16 input "number_of_level_values" with
  | .error e => .error e
  | .ok (number_of_level_values, input) =>
  match read_u8 input "decimal_scale_factor" with
  | .error e => .error e
  | .ok (decimal_scale_factor, input) =>
  let template_bytes := section_bytes - 10
  let number_of_levels := (template_bytes - 6) / 2
  match read_level_values input number_of_levels with
  | .error e => .error e
  | .ok (level_values, input) =>
  .ok (.Template5_200 ⟨section_bytes, section_number, number_of_points,
    data_representation_template_number, bits_per_value, max_level_value,
    number_of_level_values, decimal_scale_factor, level_values⟩, input)

/-- `Section5::from_reader`: header, then dispatch on the data-representation
template number (`200` implemented). -/
def Section5.from_reader (input : List ℕ) : Except Grib2Error (Section5 × List ℕ) :=
  match read_u32 input "section5_length" with
  | .error e => .error e
  | .ok (section_bytes, input) =>
  match validate_u8 input 5 "section5_number" with
  | .error e => .error e
  | .ok (section_number, input) =>
  match read_u32 input "number_of_points" with
  | .error e => .error e
  | .ok (number_of_points, input) =>
  match read_u16 input "data_representation_template_number" with
  | .error e => .error e
  | .ok (data_representation_template_number, input) =>
  if data_representation_template_number = 200 then
    read_section5_200 input section_bytes section_number number_of_points
      data_representation_template_number
  else .error (.NotImplemented 5 data_representation_template_number)

/-! ## Section 8: end-of-message marker (`grib2/sections/section8.rs`) -/

/-- The four ASCII bytes of `"7777"`. -/
def SECTION8_MARKER : List ℕ := [55, 55, 55, 55]

/-- `Section8` holds the marker bytes. -/
structure Section8 where
  marker : List ℕ
  deriving DecidableEq, Repr

/-- `Section8::from_reader`: read four bytes; anything other than `"7777"`
fails with an `Unexpected` error interpolating expected and actual bytes. -/
def Section8.from_reader (input : List ℕ) : Except Grib2Error (Section8 × List ℕ) :=
  match read_bytes input "section8_marker" 4 with
  | .error e => .error e
  | .ok (marker, input) =>
  if marker ≠ SECTION8_MARKER then
    .error (.UnexpectedMarker SECTION8_MARKER marker)
  else .ok (⟨marker⟩, input)

/-! ## Record iterator (`readers/records.rs` / `grib2/reader.rs`)

The iterator struct is split into its immutable configuration
(`IterParams`) and its mutable cursor state (`IterMut`).  The remaining
unread run-length bytes are carried as the list `IterMut.input`: the Rust
pair `read_bytes < total_bytes` corresponds to `input ≠ []` (the stream is
assumed to supply exactly `total_bytes` bytes; a short file surfaces a
`ReadError` in the source and is outside the iterator claims). -/

/-- One decoded record (`Grib2Record`). -/
structure Grib2Record (V : Type) where
  lat : ℕ
  lon : ℕ
  level : ℕ
  value : Option V
  deriving DecidableEq, Repr

/-- Immutable configuration fields of `Grib2RecordIter`. -/
structure IterParams (V : Type) where
  number_of_points : ℕ
  lon_min : ℕ
  lon_max : ℕ
  lat_inc : ℕ
  lon_inc : ℕ
  maxv : ℕ
  lngu : ℕ
  level_values : List V
  deriving DecidableEq, Repr

/-- Mutable cursor fields of `Grib2RecordIter`. -/
structure IterMut (V : Type) where
  input : List ℕ
  current_lat : ℕ
  current_lon : ℕ
  current_level : ℕ
  current_value : Option V
  returning_times : ℕ
  number_of_reads : ℕ
  last_run_length : Option ℕ
  deriving DecidableEq, Repr

/-- Outcome of one `next()` call: end of iteration (`None`), the
point-count-mismatch `Err` item (interpolating both counts), an `Ok` record,
or a Rust panic (failed assert or out-of-bounds indexing). -/
inductive IterOut (V : Type) where
  | noMoreRecords
  | countMismatch (reads points : ℕ)
  | okRecord (r : Grib2Record V)
  | crashed
  deriving DecidableEq, Repr

/-- The loop body of `retrieve_run_length`: pull bytes while any remain;
a byte `≤ maxv` seen when the accumulator is nonempty is stashed in
`last_run_length` and ends the set, otherwise the byte is appended.  On
exhaustion `last_run_length` is left unchanged (as in the source). -/
def retrieveLoop (maxv : ℕ) (last : Option ℕ) (acc : List ℕ) :
    List ℕ → List ℕ × Option ℕ × List ℕ
  | [] => (acc, last, [])
  | v :: rest =>
    if v ≤ maxv ∧ acc ≠ [] then (acc, some v, rest)
    else retrieveLoop maxv last (acc ++ [v]) rest

/-- `retrieve_run_length`: start the set from the carried-over byte if one is
present, then run the loop.  Returns the set, the new `last_run_length` and
the remaining input. -/
def retrieve_run_length (maxv : ℕ) (last : Option ℕ) (input : List ℕ) :
    List ℕ × Option ℕ × List ℕ :=
  retrieveLoop maxv last (match last with | some v => [v] | none => []) input

/-- The expansion step of `next()` when `returning_times == 0` and bytes
remain: pull one set, expand it, and look the level up in the borrowed
table.  `none` models a panic (assert failure in `expand_run_length`, or the
out-of-bounds index `level_values[level - 1]`).  On success returns the new
`(current_level, current_value, returning_times, input, last_run_length)`. -/
def expandStep {V : Type} (p : IterParams V) (m : IterMut V) :
    Option (ℕ × Option V × ℕ × List ℕ × Option ℕ) :=
  let t := retrieve_run_length p.maxv m.last_run_length m.input
  match expand_run_length t.1 p.maxv p.lngu with
  | none => none
  | some (level, times) =>
    if level = 0 then some (level, none, times, t.2.2, t.2.1)
    else
      match p.level_values.get? (level - 1) with
      | none => none
      | some v => some (level, some v, times, t.2.2, t.2.1)

/-- The shared tail of `next()`: build the record from the current
coordinate, decrement `returning_times`, advance the raster-scan coordinate
(`current_lon += lon_inc`; on passing `lon_max` reset to `lon_min` and move
one row south), and increment `number_of_reads`.  Counter and coordinate
arithmetic is wrapping `u32` arithmetic. -/
def advance {V : Type} (p : IterParams V) (m : IterMut V)
    (level : ℕ) (value : Option V) (times : ℕ) (input : List ℕ)
    (last : Option ℕ) : IterMut V :=
  let lon2 := wadd32 m.current_lon p.lon_inc
  { input := input
    current_lat := if p.lon_max < lon2 then wsub32 m.current_lat p.lat_inc
                   else m.current_lat
    current_lon := if p.lon_max < lon2 then p.lon_min else lon2
    current_level := level
    current_value := value
    returning_times := wsub32 times 1
    number_of_reads := wadd32 m.number_of_reads 1
    last_run_length := last }

namespace Grib2RecordIter

/-- `Grib2RecordIter::next` as a step function `state → outcome × state`.
A `crashed` outcome leaves the state unchanged (a Rust panic aborts the
iteration).  The record-emitting tail of the source is the shared `advance`;
it appears once per emitting branch here. -/
def next {V : Type} (p : IterParams V) (m : IterMut V) : IterOut V × IterMut V :=
  if m.returning_times = 0 ∧ m.input = [] then
    if m.number_of_reads = p.number_of_points then (.noMoreRecords, m)
    else (.countMismatch m.number_of_reads p.number_of_points, m)
  else if m.returning_times = 0 then
    match expandStep p m with
    | none => (.crashed, m)
    | some (level, value, times, input, last) =>
      (.okRecord ⟨m.current_lat, m.current_lon, level, value⟩,
       advance p m level value times input last)
  else
    (.okRecord ⟨m.current_lat, m.current_lon, m.current_level, m.current_value⟩,
     advance p m m.current_level m.current_value m.returning_times m.input
       m.last_run_length)

/-- Iterate `next` for `n` calls, collecting the outcomes in order. -/
def run {V : Type} (p : IterParams V) : IterMut V → ℕ → List (IterOut V)
  | _, 0 => []
  | m, n + 1 =>
    let s := next p m
    s.1 :: run p s.2 n

end Grib2RecordIter

/-- The `Ok` records of an outcome list, in order. -/
def okRecords {V : Type} (l : List (IterOut V)) : List (Grib2Record V) :=
  l.filterMap fun o => match o with | .okRecord r => some r | _ => none

/-- The mutable state `build` initialises: full input, cursor at the first
grid point, no active run, nothing read. -/
def initMut {V : Type} (input : List ℕ) (lat_max lon_min : ℕ) : IterMut V :=
  { input := input
    current_lat := lat_max
    current_lon := lon_min
    current_level := 0
    current_value := none
    returning_times := 0
    number_of_reads := 0
    last_run_length := none }

/-! ## Iterator builder (`grib2/reader.rs::Grib2RecordIterBuilder`) -/

/-- The seekable byte source: the whole underlying data and the current
stream position. -/
structure StreamState where
  data : List ℕ
  pos : ℕ
  deriving DecidableEq, Repr

/-- The builder: every mandatory parameter is an `Option`, `none` meaning
the corresponding setter was never called.  The `&mut BufReader` is modelled
by an owned `StreamState`. -/
structure Grib2RecordIterBuilder (V : Type) where
  reader : Option StreamState
  run_length_position : Option ℕ
  run_length_bytes : Option ℕ
  number_of_points : Option ℕ
  lat_max : Option ℕ
  lon_min : Option ℕ
  lon_max : Option ℕ
  lat_inc : Option ℕ
  lon_inc : Option ℕ
  nbit : Option ℕ
  maxv : Option ℕ
  level_values : Option (List V)
  deriving DecidableEq, Repr

/-- The first missing mandatory parameter in the order `build` checks them,
if any (spec-side reading of the fail-fast contract). -/
def firstMissing {V : Type} (b : Grib2RecordIterBuilder V) : Option String :=
  if b.reader = none then some "reader"
  else if b.run_length_position = none then some "run_length_position"
  else if b.run_length_bytes = none then some "run_length_bytes"
  else if b.number_of_points = none then some "number_of_points"
  else if b.lat_max = none then some "lat_max"
  else if b.lon_min = none then some "lon_min"
  else if b.lon_max = none then some "lon_max"
  else if b.lat_inc = none then some "lat_inc"
  else if b.lon_inc = none then some "lon_inc"
  else if b.nbit = none then some "nbit"
  else if b.maxv = none then some "maxv"
  else if b.level_values.isNone then some "level_values"
  else none

/-- `Grib2RecordIterBuilder::build`: unwrap every parameter in order,
failing with a `RuntimeError` naming the first missing one; then seek the
stream to `run_length_position` and assemble the iterator.  The iterator's
byte supply is the `run_length_bytes` bytes of the stream starting at that
position; `lngu` is derived as `2 ^ nbit − 1 − maxv`.  No data byte is
consumed by `build` itself (`number_of_reads = 0`, the input list is
intact, and the returned stream is only repositioned). -/
def build {V : Type} (b : Grib2RecordIterBuilder V) :
    Except Grib2Error (IterParams V × IterMut V × StreamState) :=
  match b.reader with
  | none => .error (.RuntimeError "reader")
  | some s =>
  match b.run_length_position with
  | none => .error (.RuntimeError "run_length_position")
  | some run_length_position =>
  match b.run_length_bytes with
  | none => .error (.RuntimeError "run_length_bytes")
  | some run_length_bytes =>
  match b.number_of_points with
  | none => .error (.RuntimeError "number_of_points")
  | some number_of_points =>
  match b.lat_max with
  | none => .error (.RuntimeError "lat_max")
  | some lat_max =>
  match b.lon_min with
  | none => .error (.RuntimeError "lon_min")
  | some lon_min =>
  match b.lon_max with
  | none => .error (.RuntimeError "lon_max")
  | some lon_max =>
  match b.lat_inc with
  | none => .error (.RuntimeError "lat_inc")
  | some lat_inc =>
  match b.lon_inc with
  | none => .error (.RuntimeError "lon_inc")
  | some lon_inc =>
  match b.nbit with
  | none => .error (.RuntimeError "nbit")
  | some nbit =>
  match b.maxv with
  | none => .error (.RuntimeError "maxv")
  | some maxv =>
  match b.level_values with
  | none => .error (.RuntimeError "level_values")
  | some level_values =>
  .ok (⟨number_of_points, lon_min, lon_max, lat_inc, lon_inc, maxv,
        2 ^ nbit - 1 - maxv, level_values⟩,
       initMut ((s.data.drop run_length_position).take run_length_bytes)
         lat_max lon_min,
       ⟨s.data, run_length_position⟩)

/-! ## Lemmas about the wrapping `u32` arithmetic -/

theorem U32_pos : 0 < U32 := by unfold U32; positivity

theorem wadd32_of_lt {a b : ℕ} (h : a + b < U32) : wadd32 a b = a + b :=
  Nat.mod_eq_of_lt h

theorem wsub32_of_le {a b : ℕ} (h1 : b ≤ a) (h2 : a < U32) : wsub32 a b = a - b := by
  have hb : b < U32 := lt_of_le_of_lt h1 h2
  unfold wsub32
  rw [Nat.mod_eq_of_lt hb]
  have h3 : a + (U32 - b) = (a - b) + U32 := by omega
  rw [h3, Nat.add_mod_right]
  exact Nat.mod_eq_of_lt (by omega)

theorem wsub32_modEq {a b : ℕ} (h1 : b ≤ a) : wsub32 a b ≡ a - b [MOD U32] := by
  show wsub32 a b % U32 = (a - b) % U32
  unfold wsub32
  rw [Nat.mod_mod_of_dvd _ dvd_rfl]
  have hq := Nat.div_add_mod b U32
  have hr : b % U32 < U32 := Nat.mod_lt _ U32_pos
  generalize hd : U32 * (b / U32) = d at hq
  have h3 : a + (U32 - b % U32) = ((a - b) + d) + U32 := by omega
  rw [h3, Nat.add_mod_right, ← hd, Nat.add_mul_mod_self_left]

theorem wmul32_modEq (a b : ℕ) : wmul32 a b ≡ a * b [MOD U32] :=
  Nat.mod_modEq _ _

theorem wadd32_modEq (a b : ℕ) : wadd32 a b ≡ a + b [MOD U32] :=
  Nat.mod_modEq _ _

theorem wpow32_modEq (a : ℕ) : ∀ n, wpow32 a n ≡ a ^ n [MOD U32] := by
  intro n
  induction n with
  | zero => exact Nat.mod_modEq _ _
  | succ n ih =>
    show wmul32 a (wpow32 a n) ≡ a ^ (n + 1) [MOD U32]
    calc wmul32 a (wpow32 a n)
        ≡ a * wpow32 a n [MOD U32] := wmul32_modEq _ _
      _ ≡ a * a ^ n [MOD U32] := Nat.ModEq.mul_left a ih
      _ = a ^ (n + 1) := (pow_succ' a n).symm

theorem foldl_wadd32 (l : List ℕ) : ∀ a, a < U32 →
    l.foldl wadd32 a = (a + l.sum) % U32 := by
  induction l with
  | nil => intro a ha; simpa using (Nat.mod_eq_of_lt ha).symm
  | cons b t ih =>
    intro a ha
    have hm : wadd32 a b < U32 := Nat.mod_lt _ U32_pos
    calc (b :: t).foldl wadd32 a = t.foldl wadd32 (wadd32 a b) := rfl
      _ = (wadd32 a b + t.sum) % U32 := ih _ hm
      _ = ((a + b) % U32 + t.sum) % U32 := rfl
      _ = (a + b + t.sum) % U32 := Nat.mod_add_mod _ _ _
      _ = (a + (b :: t).sum) % U32 := by rw [List.sum_cons]; ring_nf

theorem wsum32_modEq (l : List ℕ) : wsum32 l ≡ l.sum [MOD U32] := by
  unfold wsum32
  rw [foldl_wadd32 l 0 U32_pos, Nat.zero_add]
  exact Nat.mod_modEq _ _

theorem sum_map_modEq {α : Type} (f g : α → ℕ) :
    ∀ (l : List α), (∀ x ∈ l, f x ≡ g x [MOD U32]) →
      (l.map f).sum ≡ (l.map g).sum [MOD U32] := by
  intro l
  induction l with
  | nil => intro _; rfl
  | cons b t ih =>
    intro h
    simp only [List.map_cons, List.sum_cons]
    exact Nat.ModEq.add (h b (List.mem_cons_self b t))
      (ih fun x hx => h x (List.mem_cons_of_mem b hx))

/-- The wrapped repeat-count computation of `expand_run_length` agrees with
the spec formula `run_length_total` modulo `2 ^ 32`, for digits that are all
genuine continuation digits. -/
theorem expand_times_modEq (maxv lngu : ℕ) (digits : List ℕ)
    (h2 : ∀ d ∈ digits, maxv < d) :
    wsum32 ((digits.enum).map
        (fun p => wmul32 (wpow32 lngu p.1) (wsub32 p.2 (maxv + 1))))
      ≡ ((digits.enum).map (fun p => lngu ^ p.1 * (p.2 - (maxv + 1)))).sum
        [MOD U32] := by
  refine (wsum32_modEq _).trans (sum_map_modEq _ _ _ ?_)
  intro p hp
  have hp2 : maxv < p.2 := by
    have hg := List.mem_enum_iff_getElem?.mp hp
    exact h2 _ (List.getElem?_mem hg)
  exact (wmul32_modEq _ _).trans (Nat.ModEq.mul (wpow32_modEq lngu p.1)
    (@wsub32_modEq p.2 (maxv + 1) (by omega)))

/-- C2 (amended): for every set `level :: digits` with `level ≤ maxv` and
every digit `> maxv`, and whose spec-formula repeat count
`1 + Σ_i lngu^i * (dᵢ − (maxv+1))` fits in a `u32`, `expand_run_length`
returns `(level, 1 + Σ_i lngu^i * (dᵢ − (maxv+1)))`; with no continuation
digits it returns `(level, 1)`.  The four concrete nbit=4 / maxv=10
examples of the claim hold as stated. -/
theorem c2_expand_run_length_amended :
    (∀ (level maxv lngu : ℕ) (digits : List ℕ),
        level ≤ maxv → (∀ d ∈ digits, maxv < d) →
        run_length_total digits maxv lngu < U32 →
        expand_run_length (level :: digits) maxv lngu
          = some (level, run_length_total digits maxv lngu)) ∧
    expand_run_length [3] 10 5 = some (3, 1) ∧
    expand_run_length [9, 12] 10 5 = some (9, 2) ∧
    expand_run_length [4, 15] 10 5 = some (4, 5) ∧
    expand_run_length [0, 13, 12] 10 5 = some (0, 8) := by
  refine ⟨?_, by decide, by decide, by decide, by decide⟩
  intro level maxv lngu digits h1 h2 h3
  cases digits with
  | nil => simp [expand_run_length, run_length_total, if_pos h1]
  | cons d t =>
    have hexp : expand_run_length (level :: d :: t) maxv lngu
        = some (level, wadd32 (wsum32 (((d :: t).enum).map
            (fun p => wmul32 (wpow32 lngu p.1) (wsub32 p.2 (maxv + 1))))) 1) := by
      simp [expand_run_length, if_pos h1]
    rw [hexp]
    have hmod := expand_times_modEq maxv lngu (d :: t) h2
    have h4 : wadd32 (wsum32 (((d :: t).enum).map
          (fun p => wmul32 (wpow32 lngu p.1) (wsub32 p.2 (maxv + 1))))) 1
        ≡ run_length_total (d :: t) maxv lngu [MOD U32] := by
      unfold run_length_total
      calc wadd32 (wsum32 (((d :: t).enum).map
              (fun p => wmul32 (wpow32 lngu p.1) (wsub32 p.2 (maxv + 1))))) 1
          ≡ wsum32 (((d :: t).enum).map
              (fun p => wmul32 (wpow32 lngu p.1) (wsub32 p.2 (maxv + 1)))) + 1
              [MOD U32] := wadd32_modEq _ _
        _ ≡ (((d :: t).enum).map
              (fun p => lngu ^ p.1 * (p.2 - (maxv + 1)))).sum + 1 [MOD U32] :=
            Nat.ModEq.add_right 1 hmod
        _ = 1 + (((d :: t).enum).map
              (fun p => lngu ^ p.1 * (p.2 - (maxv + 1)))).sum := by ring
    have h5 : wadd32 (wsum32 (((d :: t).enum).map
          (fun p => wmul32 (wpow32 lngu p.1) (wsub32 p.2 (maxv + 1))))) 1
        = run_length_total (d :: t) maxv lngu := by
      have hlt : wadd32 (wsum32 (((d :: t).enum).map
            (fun p => wmul32 (wpow32 lngu p.1) (wsub32 p.2 (maxv + 1))))) 1
          < U32 := Nat.mod_lt _ U32_pos
      have := h4
      unfold Nat.ModEq at this
      rwa [Nat.mod_eq_of_lt hlt, Nat.mod_eq_of_lt h3] at this
    rw [h5]

/-- C2 counterexample: for the set `[0, 15, 15, …, 15]` with fourteen
continuation digits (nbit=4, maxv=10, lngu=5), the spec formula gives
`5^14 = 6103515625`, which exceeds `u32::MAX`; the code's wrapping `u32`
arithmetic returns `5^14 mod 2^32 = 1808548329` instead (a debug build
panics on the overflow), so the claimed equality fails at this input. -/
theorem c2_expand_run_length_counterexample :
    expand_run_length (0 :: List.replicate 14 15) 10 5
        ≠ some (0, run_length_total (List.replicate 14 15) 10 5) ∧
    expand_run_length (0 :: List.replicate 14 15) 10 5 = some (0, 1808548329) ∧
    run_length_total (List.replicate 14 15) 10 5 = 6103515625 := by
  refine ⟨by decide, by decide, by decide⟩

/-- C2 witness: the amended theorem applied at the concrete set `[9, 12]`
with maxv=10, lngu=5. -/
theorem c2_expand_run_length_witness :
    expand_run_length [9, 12] 10 5 = some (9, run_length_total [12] 10 5) :=
  c2_expand_run_length_amended.1 9 10 5 [12] (by decide) (by decide) (by decide)

/-- C1: evaluation of the iterator at the spec's E2E instance (4×3 grid,
`number_of_points = 12`, nbit=4, maxv=10 so lngu=5, run-length stream
`[3, 9, 12, 6, 4, 15, 2, 1, 0]`, whose expansion covers the grid exactly).
The code yields only 11 `Ok` records and then the point-count-mismatch
error — not 12 records followed by end of iteration — because the final
set's level byte `0`, read as the terminator of the preceding set and
carried in `last_run_length`, is never expanded: the exhaustion check of
`next` fires on `read_bytes` alone. -/
theorem c1_e2e_failing_trace :
    Grib2RecordIter.run
        (⟨12, 100, 130, 5, 10, 10, 5, [11, 12, 13, 14, 15, 16, 17, 18, 19]⟩ :
          IterParams ℕ)
        (initMut [3, 9, 12, 6, 4, 15, 2, 1, 0] 500 100) 12 =
      [.okRecord ⟨500, 100, 3, some 13⟩, .okRecord ⟨500, 110, 9, some 19⟩,
       .okRecord ⟨500, 120, 9, some 19⟩, .okRecord ⟨500, 130, 6, some 16⟩,
       .okRecord ⟨495, 100, 4, some 14⟩, .okRecord ⟨495, 110, 4, some 14⟩,
       .okRecord ⟨495, 120, 4, some 14⟩, .okRecord ⟨495, 130, 4, some 14⟩,
       .okRecord ⟨490, 100, 4, some 14⟩, .okRecord ⟨490, 110, 2, some 12⟩,
       .okRecord ⟨490, 120, 1, some 11⟩, .countMismatch 11 12] := by
  decide

/-- C5 (amended): when the active run is exhausted (`returning_times = 0`)
and every run-length byte has been consumed, `next` terminates normally iff
the emitted count equals section 3's `number_of_points`, and otherwise
fails with the internal-invariant error interpolating both counts; however
`Ok` records of a still-active run are emitted past the
`number_of_points`-th before this check can fire (see the
counterexample). -/
theorem c5_terminal_check {V : Type} (p : IterParams V) (m : IterMut V) :
    ((Grib2RecordIter.next p m).1 = IterOut.noMoreRecords ↔
      m.returning_times = 0 ∧ m.input = [] ∧
        m.number_of_reads = p.number_of_points) ∧
    ((Grib2RecordIter.next p m).1
        = IterOut.countMismatch m.number_of_reads p.number_of_points ↔
      m.returning_times = 0 ∧ m.input = [] ∧
        m.number_of_reads ≠ p.number_of_points) := by
  unfold Grib2RecordIter.next
  by_cases h1 : m.returning_times = 0 ∧ m.input = []
  · rw [if_pos h1]
    by_cases h2 : m.number_of_reads = p.number_of_points
    · rw [if_pos h2]
      exact ⟨⟨fun _ => ⟨h1.1, h1.2, h2⟩, fun _ => rfl⟩,
             ⟨fun h => absurd h (by simp), fun h => absurd h2 h.2.2⟩⟩
    · rw [if_neg h2]
      exact ⟨⟨fun h => absurd h (by simp), fun h => absurd h.2.2 h2⟩,
             ⟨fun _ => ⟨h1.1, h1.2, h2⟩, fun _ => rfl⟩⟩
  · rw [if_neg h1]
    by_cases h2 : m.returning_times = 0
    · rw [if_pos h2]
      cases hE : expandStep p m with
      | none =>
        exact ⟨⟨fun h => absurd h (by simp), fun h => absurd ⟨h.1, h.2.1⟩ h1⟩,
               ⟨fun h => absurd h (by simp), fun h => absurd ⟨h.1, h.2.1⟩ h1⟩⟩
      | some tup =>
        obtain ⟨level, value, times, input, last⟩ := tup
        exact ⟨⟨fun h => absurd h (by simp), fun h => absurd ⟨h.1, h.2.1⟩ h1⟩,
               ⟨fun h => absurd h (by simp), fun h => absurd ⟨h.1, h.2.1⟩ h1⟩⟩
    · rw [if_neg h2]
      exact ⟨⟨fun h => absurd h (by simp), fun h => absurd h.1 h2⟩,
             ⟨fun h => absurd h (by simp), fun h => absurd h.1 h2⟩⟩

/-- C5 counterexample: with `number_of_points = 2` and the stream
`[3, 9, 12]` (which expands to the three levels `3, 9, 9`), the third
item produced by the iterator — beyond the declared two — is still an
`Ok` record; the internal-invariant error only appears as the fourth
item. -/
theorem c5_overrun_counterexample :
    ((⟨2, 100, 130, 5, 10, 10, 5, [1, 2, 3, 4, 5, 6, 7, 8, 99]⟩ :
        IterParams ℕ).number_of_points = 2) ∧
    (Grib2RecordIter.run
        (⟨2, 100, 130, 5, 10, 10, 5, [1, 2, 3, 4, 5, 6, 7, 8, 99]⟩ :
          IterParams ℕ)
        (initMut [3, 9, 12] 500 100) 4).get? 2
      = some (.okRecord ⟨500, 120, 9, some 99⟩) ∧
    (Grib2RecordIter.run
        (⟨2, 100, 130, 5, 10, 10, 5, [1, 2, 3, 4, 5, 6, 7, 8, 99]⟩ :
          IterParams ℕ)
        (initMut [3, 9, 12] 500 100) 4).get? 3
      = some (.countMismatch 3 2) := by
  refine ⟨rfl, by decide, by decide⟩

/-- C5 witness: the terminal characterization applied at a concrete
exhausted state with `number_of_reads = 3 ≠ 2 = number_of_points`. -/
theorem c5_terminal_check_witness :
    (Grib2RecordIter.next
        (⟨2, 100, 130, 5, 10, 10, 5, ([] : List ℕ)⟩ : IterParams ℕ)
        ⟨[], 490, 130, 9, some 99, 0, 3, some 12⟩).1
      = IterOut.countMismatch 3 2 :=
  (c5_terminal_check
      (⟨2, 100, 130, 5, 10, 10, 5, ([] : List ℕ)⟩ : IterParams ℕ)
      ⟨[], 490, 130, 9, some 99, 0, 3, some 12⟩).2.mpr
    ⟨rfl, rfl, by decide⟩

/-- Exhaustive case analysis of one `next` step: either the outcome is
terminal (no record, state unchanged) or exactly one record is emitted at
the current coordinate and the state advances; the emitted level/value pair
comes from `expandStep` or is the stored current pair. -/
theorem next_cases {V : Type} (p : IterParams V) (m : IterMut V) :
    ((∀ r, (Grib2RecordIter.next p m).1 ≠ IterOut.okRecord r) ∧
      (Grib2RecordIter.next p m).2 = m) ∨
    (∃ level value times input last,
      (Grib2RecordIter.next p m).1
        = IterOut.okRecord ⟨m.current_lat, m.current_lon, level, value⟩ ∧
      (Grib2RecordIter.next p m).2 = advance p m level value times input last ∧
      (expandStep p m = some (level, value, times, input, last) ∨
        (level = m.current_level ∧ value = m.current_value))) := by
  unfold Grib2RecordIter.next
  by_cases h1 : m.returning_times = 0 ∧ m.input = []
  · rw [if_pos h1]
    by_cases h2 : m.number_of_reads = p.number_of_points
    · rw [if_pos h2]; exact .inl ⟨fun r h => by simp at h, rfl⟩
    · rw [if_neg h2]; exact .inl ⟨fun r h => by simp at h, rfl⟩
  · rw [if_neg h1]
    by_cases h2 : m.returning_times = 0
    · rw [if_pos h2]
      cases hE : expandStep p m with
      | none => exact .inl ⟨fun r h => by simp at h, rfl⟩
      | some tup =>
        obtain ⟨level, value, times, input, last⟩ := tup
        exact .inr ⟨level, value, times, input, last, rfl, rfl, .inl rfl⟩
    · rw [if_neg h2]
      exact .inr ⟨m.current_level, m.current_value, m.returning_times, m.input,
        m.last_run_length, rfl, rfl, .inr ⟨rfl, rfl⟩⟩

theorem run_succ {V : Type} (p : IterParams V) (m : IterMut V) (n : ℕ) :
    Grib2RecordIter.run p m (n + 1)
      = (Grib2RecordIter.next p m).1
          :: Grib2RecordIter.run p (Grib2RecordIter.next p m).2 n := rfl

theorem okRecords_cons_ok {V : Type} (r : Grib2Record V) (l : List (IterOut V)) :
    okRecords (IterOut.okRecord r :: l) = r :: okRecords l := rfl

theorem okRecords_cons_of_ne {V : Type} (o : IterOut V) (l : List (IterOut V))
    (h : ∀ r, o ≠ IterOut.okRecord r) : okRecords (o :: l) = okRecords l := by
  cases o with
  | okRecord r => exact absurd rfl (h r)
  | noMoreRecords => rfl
  | countMismatch a b => rfl
  | crashed => rfl

theorem succ_mod_div_of_lt {k W : ℕ} (hW : 0 < W) (h : k % W + 1 < W) :
    (k + 1) % W = k % W + 1 ∧ (k + 1) / W = k / W := by
  have hd := Nat.div_add_mod k W
  obtain ⟨q, hq⟩ : ∃ q, W * (k / W) = q := ⟨_, rfl⟩
  rw [hq] at hd
  have h1 : k + 1 = (k % W + 1) + q := by omega
  constructor
  · rw [h1, ← hq, Nat.add_mul_mod_self_left, Nat.mod_eq_of_lt h]
  · rw [h1, ← hq, Nat.add_mul_div_left _ _ hW, Nat.div_eq_of_lt h, Nat.zero_add]

theorem succ_mod_div_of_eq {k W : ℕ} (hW : 0 < W) (h : k % W + 1 = W) :
    (k + 1) % W = 0 ∧ (k + 1) / W = k / W + 1 := by
  have hd := Nat.div_add_mod k W
  obtain ⟨q, hq⟩ : ∃ q, W * (k / W) = q := ⟨_, rfl⟩
  rw [hq] at hd
  have h1 : k + 1 = W * (k / W + 1) := by rw [Nat.mul_add, Nat.mul_one, hq]; omega
  exact ⟨by rw [h1]; exact Nat.mul_mod_right W _,
         by rw [h1]; exact Nat.mul_div_cancel_left _ hW⟩

/-- The column count `W` implied by section 3's extent and increment:
`(lon_max − lon_min) / lon_inc + 1`. -/
def gridW {V : Type} (p : IterParams V) : ℕ :=
  (p.lon_max - p.lon_min) / p.lon_inc + 1

/-- The raster-scan coordinate invariant: after `number_of_reads` emissions
the cursor sits at row `number_of_reads / W`, column `number_of_reads % W`. -/
def CoordInv {V : Type} (p : IterParams V) (lat0 : ℕ) (m : IterMut V) : Prop :=
  m.current_lat = lat0 - (m.number_of_reads / gridW p) * p.lat_inc ∧
  m.current_lon = p.lon_min + (m.number_of_reads % gridW p) * p.lon_inc

/-- The geometric well-formedness hypotheses of the raster-order claim:
the extent is an exact multiple of a positive `lon_inc` (so that `W` is
meaningful), and the `u32` coordinate/counter arithmetic never overflows
during a scan of the declared grid. -/
structure GridOK {V : Type} (p : IterParams V) (lat0 : ℕ) : Prop where
  hinc : 0 < p.lon_inc
  hdvd : p.lon_inc ∣ (p.lon_max - p.lon_min)
  hminmax : p.lon_min ≤ p.lon_max
  hlon32 : p.lon_max + p.lon_inc < U32
  hlat32 : lat0 < U32
  hpts32 : p.number_of_points < U32
  hlatnu : (p.number_of_points / gridW p) * p.lat_inc ≤ lat0

theorem lon_max_eq {V : Type} (p : IterParams V)
    (hdvd : p.lon_inc ∣ (p.lon_max - p.lon_min))
    (hminmax : p.lon_min ≤ p.lon_max) :
    p.lon_max = p.lon_min + (gridW p - 1) * p.lon_inc := by
  have h1 : (p.lon_max - p.lon_min) / p.lon_inc * p.lon_inc
      = p.lon_max - p.lon_min := Nat.div_mul_cancel hdvd
  have h2 : gridW p - 1 = (p.lon_max - p.lon_min) / p.lon_inc :=
    Nat.add_sub_cancel _ _
  rw [h2, h1]
  omega

/-- One emission preserves the raster-scan coordinate invariant and
increments the read counter, as long as the scan is still within the
declared grid. -/
theorem advance_coordInv {V : Type} (p : IterParams V) (lat0 : ℕ)
    (hG : GridOK p lat0) (m : IterMut V) (hInv : CoordInv p lat0 m)
    (hreads : m.number_of_reads < p.number_of_points)
    (level : ℕ) (value : Option V) (times : ℕ) (input : List ℕ)
    (last : Option ℕ) :
    CoordInv p lat0 (advance p m level value times input last) ∧
    (advance p m level value times input last).number_of_reads
      = m.number_of_reads + 1 := by
  obtain ⟨hlat, hlon⟩ := hInv
  have hW : 0 < gridW p := Nat.succ_pos _
  have hmod : m.number_of_reads % gridW p < gridW p := Nat.mod_lt _ hW
  have hlmax : p.lon_max = p.lon_min + (gridW p - 1) * p.lon_inc :=
    lon_max_eq p hG.hdvd hG.hminmax
  have hle : m.number_of_reads % gridW p ≤ gridW p - 1 := by omega
  have hlon2lt : m.current_lon + p.lon_inc < U32 := by
    have hmle : (m.number_of_reads % gridW p) * p.lon_inc
        ≤ (gridW p - 1) * p.lon_inc := Nat.mul_le_mul_right _ hle
    have : m.current_lon + p.lon_inc ≤ p.lon_max + p.lon_inc := by
      rw [hlon, hlmax]; omega
    exact lt_of_le_of_lt this hG.hlon32
  have hwadd : wadd32 m.current_lon p.lon_inc = m.current_lon + p.lon_inc :=
    wadd32_of_lt hlon2lt
  have hlon2 : m.current_lon + p.lon_inc
      = p.lon_min + (m.number_of_reads % gridW p + 1) * p.lon_inc := by
    rw [hlon, Nat.succ_mul]; ring
  have hreads32 : m.number_of_reads + 1 < U32 := by
    have := hG.hpts32; omega
  have hreadsval : wadd32 m.number_of_reads 1 = m.number_of_reads + 1 :=
    wadd32_of_lt hreads32
  -- the wrap test: passing lon_max means the row is exactly full
  by_cases hwrap : p.lon_max < m.current_lon + p.lon_inc
  · -- row wrap: next coordinate is (lat − lat_inc, lon_min)
    have hcol : m.number_of_reads % gridW p + 1 = gridW p := by
      rw [hlmax, hlon2] at hwrap
      have h1 : (gridW p - 1) * p.lon_inc
          < (m.number_of_reads % gridW p + 1) * p.lon_inc := by omega
      have h2 : gridW p - 1 < m.number_of_reads % gridW p + 1 :=
        Nat.lt_of_mul_lt_mul_right h1
      omega
    obtain ⟨hm1, hd1⟩ := succ_mod_div_of_eq hW hcol
    have hdivle : ((m.number_of_reads + 1) / gridW p) * p.lat_inc ≤ lat0 := by
      have h3 : (m.number_of_reads + 1) / gridW p
          ≤ p.number_of_points / gridW p := Nat.div_le_div_right (by omega)
      exact le_trans (Nat.mul_le_mul_right _ h3) hG.hlatnu
    have hlatle : p.lat_inc ≤ m.current_lat := by
      rw [hlat]
      rw [hd1, Nat.succ_mul] at hdivle
      omega
    have hlatlt : m.current_lat < U32 := by
      rw [hlat]
      have : lat0 - (m.number_of_reads / gridW p) * p.lat_inc ≤ lat0 :=
        Nat.sub_le _ _
      exact lt_of_le_of_lt this hG.hlat32
    have hwsub : wsub32 m.current_lat p.lat_inc
        = m.current_lat - p.lat_inc := wsub32_of_le hlatle hlatlt
    refine ⟨⟨?_, ?_⟩, ?_⟩
    · show (if p.lon_max < wadd32 m.current_lon p.lon_inc
          then wsub32 m.current_lat p.lat_inc else m.current_lat) = _
      rw [hwadd, if_pos hwrap, hwsub, hlat]
      show lat0 - m.number_of_reads / gridW p * p.lat_inc - p.lat_inc
          = lat0 - (advance p m level value times input last).number_of_reads
              / gridW p * p.lat_inc
      show lat0 - m.number_of_reads / gridW p * p.lat_inc - p.lat_inc
          = lat0 - wadd32 m.number_of_reads 1 / gridW p * p.lat_inc
      rw [hreadsval, hd1, Nat.succ_mul, Nat.sub_sub]
    · show (if p.lon_max < wadd32 m.current_lon p.lon_inc
          then p.lon_min else wadd32 m.current_lon p.lon_inc) = _
      rw [hwadd, if_pos hwrap]
      show p.lon_min = p.lon_min
          + wadd32 m.number_of_reads 1 % gridW p * p.lon_inc
      rw [hreadsval, hm1]
      simp
    · show wadd32 m.number_of_reads 1 = m.number_of_reads + 1
      exact hreadsval
  · -- no wrap: next coordinate is (lat, lon + lon_inc)
    have hcol : m.number_of_reads % gridW p + 1 < gridW p := by
      rw [hlmax, hlon2] at hwrap
      have h1 : (m.number_of_reads % gridW p + 1) * p.lon_inc
          ≤ (gridW p - 1) * p.lon_inc := by omega
      have h2 : m.number_of_reads % gridW p + 1 ≤ gridW p - 1 :=
        Nat.le_of_mul_le_mul_right h1 hG.hinc
      omega
    obtain ⟨hm1, hd1⟩ := succ_mod_div_of_lt hW hcol
    refine ⟨⟨?_, ?_⟩, ?_⟩
    · show (if p.lon_max < wadd32 m.current_lon p.lon_inc
          then wsub32 m.current_lat p.lat_inc else m.current_lat) = _
      rw [hwadd, if_neg hwrap, hlat]
      show lat0 - m.number_of_reads / gridW p * p.lat_inc
          = lat0 - wadd32 m.number_of_reads 1 / gridW p * p.lat_inc
      rw [hreadsval, hd1]
    · show (if p.lon_max < wadd32 m.current_lon p.lon_inc
          then p.lon_min else wadd32 m.current_lon p.lon_inc) = _
      rw [hwadd, if_neg hwrap, hlon2]
      show p.lon_min + (m.number_of_reads % gridW p + 1) * p.lon_inc
          = p.lon_min + wadd32 m.number_of_reads 1 % gridW p * p.lon_inc
      rw [hreadsval, hm1]
    · show wadd32 m.number_of_reads 1 = m.number_of_reads + 1
      exact hreadsval

/-- Trace-level raster order: starting from any state satisfying the
coordinate invariant, the `K`-th `Ok` record of the remaining trace (while
within the declared grid) carries the coordinates given by the row/column
formula at index `number_of_reads + K`. -/
theorem okRecords_run_coords {V : Type} (p : IterParams V) (lat0 : ℕ)
    (hG : GridOK p lat0) :
    ∀ (n : ℕ) (m : IterMut V), CoordInv p lat0 m →
      ∀ (K : ℕ) (r : Grib2Record V),
        m.number_of_reads + K < p.number_of_points →
        (okRecords (Grib2RecordIter.run p m n)).get? K = some r →
        r.lat = lat0 - ((m.number_of_reads + K) / gridW p) * p.lat_inc ∧
        r.lon = p.lon_min + ((m.number_of_reads + K) % gridW p) * p.lon_inc := by
  intro n
  induction n with
  | zero =>
    intro m _ K r _ hget
    simp [Grib2RecordIter.run, okRecords] at hget
  | succ n ih =>
    intro m hInv K r hK hget
    rcases next_cases p m with ⟨hno, hstate⟩ |
      ⟨level, value, times, input, last, hok, hstate, _⟩
    · rw [run_succ, okRecords_cons_of_ne _ _ hno, hstate] at hget
      exact ih m hInv K r hK hget
    · rw [run_succ, hok, okRecords_cons_ok, hstate] at hget
      obtain ⟨hInv2, hreads2⟩ :=
        advance_coordInv p lat0 hG m hInv (by omega) level value times input last
      cases K with
      | zero =>
        have hr : (⟨m.current_lat, m.current_lon, level, value⟩ : Grib2Record V)
            = r := by
          have : some (⟨m.current_lat, m.current_lon, level, value⟩ :
              Grib2Record V) = some r := hget
          injection this
        rw [← hr]
        rw [Nat.add_zero]
        exact ⟨hInv.1, hInv.2⟩
      | succ K =>
        have hget2 : (okRecords (Grib2RecordIter.run p
            (advance p m level value times input last) n)).get? K = some r := hget
        have hb : (advance p m level value times input last).number_of_reads + K
            < p.number_of_points := by rw [hreads2]; omega
        have hres := ih (advance p m level value times input last) hInv2 K r hb hget2
        rw [hreads2] at hres
        have harr : m.number_of_reads + 1 + K = m.number_of_reads + (K + 1) := by
          omega
        rw [harr] at hres
        exact hres

/-- C3: assuming the grid extent is an exact multiple of a positive
`lon_inc` (so `W = (lon_max − lon_min) / lon_inc + 1` is the column count)
and the scan stays within `u32` range, the `K`-th `Ok` record emitted by the
iterator (0-indexed, `K < number_of_points`) carries
`lat = lat0 − (K div W)·lat_inc` and `lon = lon0 + (K mod W)·lon_inc`; in
particular the first record is at `(lat0, lon0)`. -/
theorem c3_raster_scan_order {V : Type} (p : IterParams V) (lat0 : ℕ)
    (input : List ℕ) (hG : GridOK p lat0) (n K : ℕ) (r : Grib2Record V)
    (hK : K < p.number_of_points)
    (hget : (okRecords (Grib2RecordIter.run p
        (initMut input lat0 p.lon_min) n)).get? K = some r) :
    r.lat = lat0 - (K / gridW p) * p.lat_inc ∧
    r.lon = p.lon_min + (K % gridW p) * p.lon_inc := by
  have h0 : CoordInv p lat0 (initMut input lat0 p.lon_min) := by
    constructor
    · show lat0 = lat0 - (0 / gridW p) * p.lat_inc
      simp
    · show p.lon_min = p.lon_min + (0 % gridW p) * p.lon_inc
      simp
  have hres := okRecords_run_coords p lat0 hG n (initMut input lat0 p.lon_min)
    h0 K r (by simpa [initMut] using hK) hget
  simpa [initMut] using hres

/-- C3 witness: a 2-point one-row-plus grid (`lon_min = 10`, `lon_max = 11`,
increments 1, `lat0 = 7`) with stream `[1, 11]`; the 0th record sits at
`(lat0, lon_min)` as the formula requires. -/
theorem c3_raster_scan_order_witness :
    (⟨7, 10, 1, some 5⟩ : Grib2Record ℕ).lat
        = 7 - (0 / gridW (⟨2, 10, 11, 1, 1, 10, 5, [5]⟩ : IterParams ℕ))
            * (⟨2, 10, 11, 1, 1, 10, 5, [5]⟩ : IterParams ℕ).lat_inc ∧
    (⟨7, 10, 1, some 5⟩ : Grib2Record ℕ).lon
        = 10 + (0 % gridW (⟨2, 10, 11, 1, 1, 10, 5, [5]⟩ : IterParams ℕ))
            * (⟨2, 10, 11, 1, 1, 10, 5, [5]⟩ : IterParams ℕ).lon_inc :=
  c3_raster_scan_order (⟨2, 10, 11, 1, 1, 10, 5, [5]⟩ : IterParams ℕ) 7 [1, 11]
    ⟨by decide, by decide, by decide, by decide, by decide, by decide, by decide⟩
    1 0 ⟨7, 10, 1, some 5⟩ (by decide) (by decide)

/-- The level/value consistency invariant of the stored current pair. -/
def StInv {V : Type} (p : IterParams V) (m : IterMut V) : Prop :=
  (m.current_value = none ↔ m.current_level = 0) ∧
  (1 ≤ m.current_level → m.current_level ≤ p.level_values.length →
    m.current_value = p.level_values.get? (m.current_level - 1))

/-- A successful `expandStep` produces a level/value pair satisfying the
missing-value mapping: `none` exactly for level 0, and the table entry
`level_values[level − 1]` otherwise. -/
theorem expandStep_level_value {V : Type} (p : IterParams V) (m : IterMut V)
    (level : ℕ) (value : Option V) (times : ℕ) (input : List ℕ)
    (last : Option ℕ)
    (hE : expandStep p m = some (level, value, times, input, last)) :
    (value = none ↔ level = 0) ∧
    (1 ≤ level → level ≤ p.level_values.length →
      value = p.level_values.get? (level - 1)) := by
  simp only [expandStep] at hE
  cases hX : expand_run_length
      (retrieve_run_length p.maxv m.last_run_length m.input).1 p.maxv p.lngu with
  | none => rw [hX] at hE; simp at hE
  | some lt =>
    obtain ⟨l, t⟩ := lt
    rw [hX] at hE
    dsimp only at hE
    by_cases hl : l = 0
    · rw [if_pos hl] at hE
      simp only [Option.some.injEq, Prod.mk.injEq] at hE
      obtain ⟨h1, h2, -⟩ := hE
      subst h1; subst hl
      rw [← h2]
      exact ⟨by simp, fun hc _ => absurd hc (by omega)⟩
    · rw [if_neg hl] at hE
      cases hg : p.level_values.get? (l - 1) with
      | none => rw [hg] at hE; simp at hE
      | some v =>
        rw [hg] at hE
        simp only [Option.some.injEq, Prod.mk.injEq] at hE
        obtain ⟨h1, h2, -⟩ := hE
        subst h1
        rw [← h2]
        exact ⟨by simp [hl], fun _ _ => hg.symm⟩

/-- Every `Ok` record of a trace started in a `StInv` state satisfies the
missing-value mapping. -/
theorem okRecords_run_values {V : Type} (p : IterParams V) :
    ∀ (n : ℕ) (m : IterMut V), StInv p m →
      ∀ r ∈ okRecords (Grib2RecordIter.run p m n),
        (r.value = none ↔ r.level = 0) ∧
        (1 ≤ r.level → r.level ≤ p.level_values.length →
          r.value = p.level_values.get? (r.level - 1)) := by
  intro n
  induction n with
  | zero => intro m _ r hr; simp [Grib2RecordIter.run, okRecords] at hr
  | succ n ih =>
    intro m hInv r hr
    rcases next_cases p m with ⟨hno, hstate⟩ |
      ⟨level, value, times, input, last, hok, hstate, hsrc⟩
    · rw [run_succ, okRecords_cons_of_ne _ _ hno, hstate] at hr
      exact ih m hInv r hr
    · rw [run_succ, hok, okRecords_cons_ok, hstate] at hr
      have hprop : (value = none ↔ level = 0) ∧
          (1 ≤ level → level ≤ p.level_values.length →
            value = p.level_values.get? (level - 1)) := by
        rcases hsrc with hE | ⟨hl, hv⟩
        · exact expandStep_level_value p m level value times input last hE
        · subst hl; subst hv; exact ⟨hInv.1, hInv.2⟩
      have hInv2 : StInv p (advance p m level value times input last) :=
        ⟨hprop.1, hprop.2⟩
      rcases List.mem_cons.mp hr with hr0 | hrmem
      · subst hr0; exact hprop
      · exact ih _ hInv2 r hrmem

/-- C4: every `Ok` record emitted by the iterator has `value = none` iff
its level is 0, and for a decoded level within the borrowed table
(`1 ≤ level ≤ count`) the value is exactly `some (level_values[level − 1])`
and never `none`. -/
theorem c4_missing_value_mapping {V : Type} (p : IterParams V) (input : List ℕ)
    (lat0 : ℕ) (n : ℕ) (r : Grib2Record V)
    (hr : r ∈ okRecords (Grib2RecordIter.run p (initMut input lat0 p.lon_min) n)) :
    (r.value = none ↔ r.level = 0) ∧
    (1 ≤ r.level → r.level ≤ p.level_values.length →
      r.value = p.level_values.get? (r.level - 1) ∧ r.value ≠ none) := by
  have h0 : StInv p (initMut input lat0 p.lon_min) := by
    refine ⟨by simp [initMut], fun h1 _ => ?_⟩
    exact absurd h1 (by simp [initMut])
  have hres := okRecords_run_values p n _ h0 r hr
  refine ⟨hres.1, fun h1 h2 => ⟨hres.2 h1 h2, ?_⟩⟩
  rw [hres.2 h1 h2]
  intro hnone
  rw [List.get?_eq_none] at hnone
  omega

/-- C4 witness: the first record of the E2E trace has level 3 and value
`some 13 = some (level_values[2])`. -/
theorem c4_missing_value_mapping_witness :
    ((⟨500, 100, 3, some 13⟩ : Grib2Record ℕ).value = none
      ↔ (⟨500, 100, 3, some 13⟩ : Grib2Record ℕ).level = 0) ∧
    (1 ≤ (⟨500, 100, 3, some 13⟩ : Grib2Record ℕ).level →
      (⟨500, 100, 3, some 13⟩ : Grib2Record ℕ).level
        ≤ (⟨12, 100, 130, 5, 10, 10, 5,
            [11, 12, 13, 14, 15, 16, 17, 18, 19]⟩ :
            IterParams ℕ).level_values.length →
      (⟨500, 100, 3, some 13⟩ : Grib2Record ℕ).value
        = (⟨12, 100, 130, 5, 10, 10, 5,
            [11, 12, 13, 14, 15, 16, 17, 18, 19]⟩ :
            IterParams ℕ).level_values.get?
              ((⟨500, 100, 3, some 13⟩ : Grib2Record ℕ).level - 1) ∧
      (⟨500, 100, 3, some 13⟩ : Grib2Record ℕ).value ≠ none) :=
  c4_missing_value_mapping
    (⟨12, 100, 130, 5, 10, 10, 5, [11, 12, 13, 14, 15, 16, 17, 18, 19]⟩ :
      IterParams ℕ)
    [3, 9, 12, 6, 4, 15, 2, 1, 0] 500 1 ⟨500, 100, 3, some 13⟩ (by decide)

/-- C6: building a record iterator with any mandatory parameter missing
fails with a `RuntimeError` naming the first missing parameter (in the
order `build` unwraps them), without touching the stream; on success the
construction itself returns the stream repositioned to
`run_length_position`, with the iterator's cursor fresh
(`number_of_reads = 0`, full byte supply, no run-length byte consumed). -/
theorem c6_build_contract {V : Type} :
    (∀ (b : Grib2RecordIterBuilder V) (param : String),
        firstMissing b = some param →
        build b = .error (.RuntimeError param)) ∧
    (∀ (s : StreamState) (rlp rlb pts la lo lx li loi nb mv : ℕ)
        (lv : List V),
        build (⟨some s, some rlp, some rlb, some pts, some la, some lo,
                some lx, some li, some loi, some nb, some mv, some lv⟩ :
                Grib2RecordIterBuilder V) =
          .ok (⟨pts, lo, lx, li, loi, mv, 2 ^ nb - 1 - mv, lv⟩,
               initMut ((s.data.drop rlp).take rlb) la lo,
               ⟨s.data, rlp⟩)) := by
  constructor
  · intro b param h
    obtain ⟨rd, f1, f2, f3, f4, f5, f6, f7, f8, f9, f10, f11⟩ := b
    cases rd with
    | none => simp [firstMissing] at h; subst h; rfl
    | some s =>
    cases f1 with
    | none => simp [firstMissing] at h; subst h; rfl
    | some rlp =>
    cases f2 with
    | none => simp [firstMissing] at h; subst h; rfl
    | some rlb =>
    cases f3 with
    | none => simp [firstMissing] at h; subst h; rfl
    | some pts =>
    cases f4 with
    | none => simp [firstMissing] at h; subst h; rfl
    | some la =>
    cases f5 with
    | none => simp [firstMissing] at h; subst h; rfl
    | some lo =>
    cases f6 with
    | none => simp [firstMissing] at h; subst h; rfl
    | some lx =>
    cases f7 with
    | none => simp [firstMissing] at h; subst h; rfl
    | some li =>
    cases f8 with
    | none => simp [firstMissing] at h; subst h; rfl
    | some loi =>
    cases f9 with
    | none => simp [firstMissing] at h; subst h; rfl
    | some nb =>
    cases f10 with
    | none => simp [firstMissing] at h; subst h; rfl
    | some mv =>
    cases f11 with
    | none => simp [firstMissing] at h; subst h; rfl
    | some lv => simp [firstMissing] at h
  · intro s rlp rlb pts la lo lx li loi nb mv lv
    rfl

/-- C6 witness: the empty builder fails naming `reader`, the first
mandatory parameter in check order. -/
theorem c6_build_contract_witness :
    build (⟨none, none, none, none, none, none, none, none, none, none,
            none, none⟩ : Grib2RecordIterBuilder ℕ)
      = .error (.RuntimeError "reader") :=
  (@c6_build_contract ℕ).1 _ "reader" rfl

/-- C7: for each templated section, a template id outside the implemented
set (3: `{0}`; 4: `{0, 50008}`; 5: `{200}`) makes `from_reader` return the
`NotImplemented` error carrying that id, after reading exactly the header
fields and the id — no subsequent field is touched. -/
theorem c7_unknown_template_rejected :
    (∀ (l0 l1 l2 l3 g n0 n1 n2 n3 o1 o2 t0 t1 : ℕ) (rest : List ℕ),
        t0 * 256 + t1 ≠ 0 →
        Section3.from_reader (l0 :: l1 :: l2 :: l3 :: 3 :: g :: n0 :: n1 :: n2
            :: n3 :: o1 :: o2 :: t0 :: t1 :: rest)
          = .error (.NotImplemented 3 (t0 * 256 + t1))) ∧
    (∀ (l0 l1 l2 l3 a0 a1 t0 t1 : ℕ) (rest : List ℕ),
        t0 * 256 + t1 ≠ 0 → t0 * 256 + t1 ≠ 50008 →
        Section4.from_reader (l0 :: l1 :: l2 :: l3 :: 4 :: a0 :: a1 :: t0
            :: t1 :: rest)
          = .error (.NotImplemented 4 (t0 * 256 + t1))) ∧
    (∀ (l0 l1 l2 l3 n0 n1 n2 n3 t0 t1 : ℕ) (rest : List ℕ),
        t0 * 256 + t1 ≠ 200 →
        Section5.from_reader (l0 :: l1 :: l2 :: l3 :: 5 :: n0 :: n1 :: n2
            :: n3 :: t0 :: t1 :: rest)
          = .error (.NotImplemented 5 (t0 * 256 + t1))) := by
  refine ⟨?_, ?_, ?_⟩
  · intro l0 l1 l2 l3 g n0 n1 n2 n3 o1 o2 t0 t1 rest ht
    simp [Section3.from_reader, read_u32, validate_u8, read_u8, read_u16, ht]
  · intro l0 l1 l2 l3 a0 a1 t0 t1 rest ht0 ht1
    simp [Section4.from_reader, read_u32, validate_u8, read_u8, read_u16,
      ht0, ht1]
  · intro l0 l1 l2 l3 n0 n1 n2 n3 t0 t1 rest ht
    simp [Section5.from_reader, read_u32, validate_u8, read_u8, read_u16, ht]

/-- C7 witness: concrete unsupported template ids 7 (section 3),
1 (section 4) and 0 (section 5). -/
theorem c7_unknown_template_rejected_witness :
    Section3.from_reader [0, 0, 0, 72, 3, 0, 0, 0, 0, 12, 0, 0, 0, 7]
      = .error (.NotImplemented 3 7) ∧
    Section4.from_reader [0, 0, 0, 82, 4, 0, 0, 0, 1]
      = .error (.NotImplemented 4 1) ∧
    Section5.from_reader [0, 0, 0, 34, 5, 0, 0, 0, 12, 0, 0]
      = .error (.NotImplemented 5 0) :=
  ⟨c7_unknown_template_rejected.1 0 0 0 72 0 0 0 0 12 0 0 0 7 [] (by decide),
   c7_unknown_template_rejected.2.1 0 0 0 82 0 0 0 1 [] (by decide) (by decide),
   c7_unknown_template_rejected.2.2 0 0 0 34 0 0 0 12 0 0 [] (by decide)⟩

/-- C8: `Section8::from_reader` succeeds iff the four bytes read are the
ASCII marker `"7777"` (`[55, 55, 55, 55]`); on any other four bytes it
fails with the `Unexpected` error carrying both the expected and the actual
bytes. -/
theorem c8_section8_marker (b0 b1 b2 b3 : ℕ) (rest : List ℕ) :
    (Section8.from_reader (b0 :: b1 :: b2 :: b3 :: rest)
        = .ok (⟨[b0, b1, b2, b3]⟩, rest)
      ↔ [b0, b1, b2, b3] = SECTION8_MARKER) ∧
    ([b0, b1, b2, b3] ≠ SECTION8_MARKER →
      Section8.from_reader (b0 :: b1 :: b2 :: b3 :: rest)
        = .error (.UnexpectedMarker SECTION8_MARKER [b0, b1, b2, b3])) := by
  have hrb : read_bytes (b0 :: b1 :: b2 :: b3 :: rest) "section8_marker" 4
      = .ok ([b0, b1, b2, b3], rest) := by norm_num [read_bytes]
  unfold Section8.from_reader
  rw [hrb]
  dsimp only
  by_cases hm : [b0, b1, b2, b3] = SECTION8_MARKER
  · rw [if_neg (not_not_intro hm)]
    exact ⟨⟨fun _ => hm, fun _ => rfl⟩, fun hc => absurd hm hc⟩
  · rw [if_pos hm]
    exact ⟨⟨fun h => absurd h (by simp), fun h => absurd h hm⟩, fun _ => rfl⟩

/-- C8 witness: four corrupted trailer bytes produce the error reporting
expected `"7777"` and the actual bytes. -/
theorem c8_section8_marker_witness :
    Section8.from_reader [55, 55, 55, 56]
      = .error (.UnexpectedMarker SECTION8_MARKER [55, 55, 55, 56]) :=
  (c8_section8_marker 55 55 55 56 []).2 (by decide)

/-- C9: `read_i16` / `read_i32` decode sign-magnitude: the big-endian value
of the bytes with the first byte's top bit cleared, negated iff that bit
was set; in particular bytes `0x80 0x05` decode to `-5` (not the
two's-complement `-32763`) and `0x80 0x00` to `0`. -/
theorem c9_sign_magnitude_reads :
    (∀ (name : String) (b0 b1 : ℕ) (rest : List ℕ), b0 < 256 →
        read_i16 (b0 :: b1 :: rest) name
          = .ok ((if 128 ≤ b0
                  then -(((b0 - 128) * 256 + b1 : ℕ) : ℤ)
                  else (((b0 * 256 + b1 : ℕ) : ℤ))), rest)) ∧
    (∀ (name : String) (b0 b1 b2 b3 : ℕ) (rest : List ℕ), b0 < 256 →
        read_i32 (b0 :: b1 :: b2 :: b3 :: rest) name
          = .ok ((if 128 ≤ b0
                  then -(((((b0 - 128) * 256 + b1) * 256 + b2) * 256 + b3 : ℕ) : ℤ)
                  else (((((b0 * 256 + b1) * 256 + b2) * 256 + b3 : ℕ) : ℤ))),
                 rest)) ∧
    read_i16 [128, 5] "forecast_time" = .ok (-5, []) ∧
    read_i16 [128, 0] "forecast_time" = .ok (0, []) := by
  refine ⟨?_, ?_, by norm_num [read_i16], by norm_num [read_i16]⟩
  · intro name b0 b1 rest hb
    unfold read_i16
    by_cases h : b0 < 128
    · rw [if_neg (by omega)]
      have hm : b0 % 128 = b0 := Nat.mod_eq_of_lt h
      simp [h, hm]
    · rw [if_pos (by omega)]
      have hm : b0 % 128 = b0 - 128 := by
        rw [Nat.mod_eq_sub_mod (by omega)]
        exact Nat.mod_eq_of_lt (by omega)
      simp [h, hm]
  · intro name b0 b1 b2 b3 rest hb
    unfold read_i32
    by_cases h : b0 < 128
    · rw [if_neg (by omega)]
      have hm : b0 % 128 = b0 := Nat.mod_eq_of_lt h
      simp [h, hm]
    · rw [if_pos (by omega)]
      have hm : b0 % 128 = b0 - 128 := by
        rw [Nat.mod_eq_sub_mod (by omega)]
        exact Nat.mod_eq_of_lt (by omega)
      simp [h, hm]

/-- C9 witness: bytes `0x81 0x02` decode to `-(0x0102) = -258`. -/
theorem c9_sign_magnitude_reads_witness :
    read_i16 [129, 2] "forecast_time" = .ok (-258, []) := by
  have h := c9_sign_magnitude_reads.1 "forecast_time" 129 2 [] (by decide)
  norm_num at h
  exact h

/-- C10: with the corrupt single-byte stream `[2]` (a valid level code,
`2 ≤ maxv = 10`) and a borrowed level table of length 1, the decoded level
exceeds the table, and `next` panics on the out-of-bounds index
`level_values[level - 1]` (modelled by `crashed`) instead of yielding a
`Grib2Error` item. -/
theorem c10_oob_level_crashes :
    (Grib2RecordIter.next (⟨1, 100, 100, 1, 1, 10, 5, [7]⟩ : IterParams ℕ)
        (initMut [2] 500 100)).1 = IterOut.crashed ∧
    (retrieve_run_length 10 none [2]).1 = [2] ∧
    expand_run_length [2] 10 5 = some (2, 1) ∧
    ([7] : List ℕ).length = 1 ∧
    ([7] : List ℕ).get? (2 - 1) = none := by
  refine ⟨by decide, by decide, by decide, by decide, by decide⟩

end Grib2
